import Mathlib

/-!
Verification of the blogger automation repository's history / duplicate-guard /
token-lifecycle core, shallowly embedded in Lean.

Conventions of the embedding:
* Machine time is modelled as `Int` seconds.  A stored `timestamp` field is
  modelled at its parse result: `none` = key absent, `some none` = key present
  but `datetime.fromisoformat` raises (malformed), `some (some t)` = parses to
  the instant `t`.
* The host's local calendar-date formatting (`strftime '%Y-%m-%d'`) is an
  abstract parameter `dateStr : Int → String`.
* The content hash (`hashlib.md5(title.encode()).hexdigest()`) is an abstract
  parameter `hashF : String → String`; the code only compares hashes for
  equality.
* An HTTP interaction (`requests.post`) is a parameter of type `HttpResult`:
  either a response with a status code and a body, or a raised exception.
  For the token endpoint, the body stands for the parsed `access_token` field
  of the response JSON.
-/

/-- One element of `post_history.json` as the guard functions read it:
only the keys `title_hash`, `timestamp` and `topic` are ever consulted.
An `Option` is `none` when the key is absent from the JSON object. -/
structure PostEntry where
  title_hash : Option String
  timestamp : Option (Option Int)
  topic : Option String
deriving DecidableEq

/-- `needle` occurs at the start of `hay` (character-wise). -/
def leadsIn : List Char → List Char → Bool
  | [], _ => true
  | _ :: _, [] => false
  | a :: as, b :: bs => a == b && leadsIn as bs

/-- Python's substring test `needle in hay` on the character lists. -/
def listContains (hay needle : List Char) : Bool :=
  match hay with
  | [] => needle.isEmpty
  | _ :: t => leadsIn needle hay || listContains t needle

/-- Python's `needle in hay` on strings (substring containment). -/
def strContains (hay needle : String) : Bool :=
  listContains hay.toList needle.toList

/-- Python's `str.lower()`. -/
def lowerStr (s : String) : String :=
  s.map Char.toLower

/-- The body of the `for post in history` loop of `check_duplicate`
(enhanced_blog_automation.py lines 132-145): first the exact-hash test,
then, when the entry's timestamp parses and lies strictly less than 86400
seconds before `now`, the case-insensitive topic-substring test.  A parse
failure is swallowed by the `except: pass`. -/
def post_matches (hashF : String → String) (now : Int) (title : String)
    (p : PostEntry) : Bool :=
  (match p.title_hash with
   | some h => decide (h = hashF title)
   | none => false)
  ||
  (match p.timestamp with
   | some (some t) =>
     if now - t < 86400 then
       match p.topic with
       | some tp => strContains (lowerStr tp) (lowerStr title)
       | none => false
     else false
   | _ => false)

/-- `check_duplicate(title, content, history)` (lines 127-147).  The `content`
argument is accepted and ignored, as in the source. -/
def check_duplicate (hashF : String → String) (now : Int)
    (title content : String) (history : List PostEntry) : Bool :=
  history.any (post_matches hashF now title)

/-- `should_post_today(history, max_posts_per_day=1)` (lines 527-541):
counts the entries whose parsed timestamp formats to the same local calendar
date as `now`; malformed or missing timestamps are skipped by the
`try/except`. -/
def should_post_today (dateStr : Int → String) (now : Int)
    (history : List PostEntry) (max_posts_per_day : Nat) : Bool :=
  let today := dateStr now
  let today_posts := history.filter (fun p =>
    match p.timestamp with
    | some (some t) => decide (dateStr t = today)
    | _ => false)
  decide (today_posts.length < max_posts_per_day)

/-- The truncation `if len(history) > 100: history = history[-100:]` performed
by `save_post_history` (lines 62-72) before writing: keep the most recent
100 entries, i.e. drop the oldest `length - 100`. -/
def truncate_history {α : Type} (history : List α) : List α :=
  if 100 < history.length then history.drop (history.length - 100) else history

/-- `save_post_history(history)` (lines 62-72) against an abstract filesystem
`write`: the truncated list is written, and any write failure is caught by the
`except` (which only prints a warning), so the function always returns
normally. -/
def save_post_history {α : Type} (write : List α → Except String Unit)
    (history : List α) : Except String Unit :=
  match write (truncate_history history) with
  | .ok _ => .ok ()
  | .error _ => .ok ()

/-- Outcome of one `requests.post` call: a response with an HTTP status code
and a body, or a raised exception (network failure).  For the OAuth token
endpoint the `body` stands for the parsed `access_token` field of the
response JSON. -/
inductive HttpResult where
  | resp (status : Nat) (body : String)
  | exn
deriving DecidableEq

/-- Whether the call produced an HTTP 200 response
(`response.status_code == 200`). -/
def is200 : HttpResult → Bool
  | .resp status _ => decide (status = 200)
  | .exn => false

/-- `config['token_data']` as `post_to_blog` reads it: only the keys `token`
and `refresh_token` are consulted there; an `Option` is `none` when the key
is absent from the JSON object. -/
structure TokenData where
  token : Option String
  refresh_token : Option String
deriving DecidableEq

/-- The token-refresh block of `post_to_blog` (lines 474-492): runs only when
a `refresh_token` key is present; on an HTTP 200 response it stores the new
access token under the key `token`; on any other status, or on a raised
exception, the bare `except`/`else` branches just print a warning and leave
the record unchanged. -/
def refresh_step (ro : HttpResult) (td : TokenData) : TokenData :=
  match td.refresh_token with
  | none => td
  | some _ =>
    match ro with
    | .resp status body =>
      if status = 200 then { td with token := some body } else td
    | .exn => td

/-- Construction of the Authorization header (line 496):
`f'Bearer {token_data["token"]}'`.  The subscript lookup raises `KeyError`
when the record has no `token` key; this happens outside the `try` block of
lines 510-525, so the error propagates out of `post_to_blog`. -/
def build_auth (td : TokenData) : Except String String :=
  match td.token with
  | some t => .ok ("Bearer " ++ t)
  | none => .error "KeyError: token"

/-- The publish POST of `post_to_blog` (lines 510-525): `Some body` (the
parsed response) exactly on HTTP 200; any other status or a raised exception
prints a message and returns `None`. -/
def post_request : HttpResult → Option String
  | .resp status body => if status = 200 then some body else none
  | .exn => none

/-- `post_to_blog(config, title, content, labels)` (lines 470-525) as a
function of the two network outcomes: refresh step, then the Authorization
header (whose `KeyError` escapes as `.error`), then the publish POST. -/
def post_to_blog (ro po : HttpResult) (td : TokenData) :
    Except String (Option String) :=
  match build_auth (refresh_step ro td) with
  | .error e => .error e
  | .ok _ => .ok (post_request po)

/-- Observable outcome of the tail of `main` (lines 608-632): the process
exit code and the persisted history contents. -/
structure RunResult where
  exitCode : Nat
  history : List PostEntry
deriving DecidableEq

/-- Steps 6-7 of `main` (lines 608-632): publish, then — only when
`post_to_blog` returned a post — append the new entry and persist the
(truncated) history; otherwise `sys.exit(1)` with the history file untouched.
An uncaught exception from `post_to_blog` also terminates the process with a
non-zero code before any history write. -/
def main_run (ro po : HttpResult) (td : TokenData)
    (history : List PostEntry) (entry : PostEntry) : RunResult :=
  match post_to_blog ro po td with
  | .error _ => { exitCode := 1, history := history }
  | .ok none => { exitCode := 1, history := history }
  | .ok (some _) =>
    { exitCode := 0, history := truncate_history (history ++ [entry]) }

/-- The topic-selection loop of `main` (lines 572-585) in the automatic path
(no `--topic` override): `gen n` is the result of the `(n+1)`-th call to
`generate_dynamic_topic()`, `dup` is `check_duplicate` against the loaded
history.  Each iteration draws the next candidate and stops at the first
non-duplicate. -/
def select_topic_from (gen : Nat → String) (dup : String → Bool) :
    Nat → Nat → Option String
  | _, 0 => none
  | attempt, r + 1 =>
    if dup (gen attempt) then select_topic_from gen dup (attempt + 1) r
    else some (gen attempt)

/-- Lines 572-589 of `main`: five loop attempts; when all five candidates are
judged duplicates, `selected_topic` is still `None` and line 588 calls
`generate_dynamic_topic()` once more — a sixth, never-duplicate-checked
candidate. -/
def select_topic (gen : Nat → String) (dup : String → Bool) : String :=
  match select_topic_from gen dup 0 5 with
  | some t => t
  | none => gen 5

/-- The process environment as `load_config` (lines 27-52) reads it: `none`
means the variable is unset, in which case `os.environ.get` substitutes the
placeholder `'***'`. -/
structure Env where
  GOOGLE_CLIENT_ID : Option String
  GOOGLE_CLIENT_SECRET : Option String
  BLOGGER_BLOG_ID : Option String
  GEMINI_API_KEY : Option String
deriving DecidableEq

/-- The `config` dict built by `load_config`. -/
structure Config where
  google_client_id : String
  google_client_secret : String
  blog_id : String
  gemini_api_key : String
  token_data : TokenData
deriving DecidableEq

/-- `load_config()` (lines 27-52): builds the config with `'***'` defaults,
fails (returns `None`) when `blogger_token.json` cannot be loaded, and fails
when the Gemini key is empty or still the `'***'` placeholder.  No other
credential is validated. -/
def load_config (env : Env) (token_file : Option TokenData) : Option Config :=
  let c : Config :=
    { google_client_id := env.GOOGLE_CLIENT_ID.getD "***"
      google_client_secret := env.GOOGLE_CLIENT_SECRET.getD "***"
      blog_id := env.BLOGGER_BLOG_ID.getD "***"
      gemini_api_key := env.GEMINI_API_KEY.getD "***"
      token_data := { token := none, refresh_token := none } }
  match token_file with
  | none => none
  | some td =>
    if c.gemini_api_key ≠ "" ∧ c.gemini_api_key ≠ "***" then
      some { c with token_data := td }
    else none

/-- Lines 555-559 of `main`: a `None` config prints an error and calls
`sys.exit(1)`; otherwise the run continues (`none` = no early exit). -/
def config_exit_code (c : Option Config) : Option Nat :=
  match c with
  | none => some 1
  | some _ => none

/-- The token-endpoint response JSON as `save_token_data` reads it
(blogger_token.py lines 59-84); `none` = the key is absent. -/
structure TokenInfo where
  access_token : Option String
  refresh_token : Option String
  token_type : Option String
  expires_in : Option Int
deriving DecidableEq

/-- The `formatted_data` object written to `blogger_token.json` by
`save_token_data`: its keys are exactly `access_token`, `refresh_token`,
`token_type`, `expires_in`, `issued_at`, `expires_at` — there is no `token`
key. -/
structure FormattedToken where
  access_token : Option String
  refresh_token : Option String
  token_type : String
  expires_in : Option Int
  issued_at : Int
  expires_at : Int
deriving DecidableEq

/-- What one call of `save_token_data` did: the record it wrote, whether the
missing-refresh-token warning was printed, and its return value. -/
structure SaveTokenTrace where
  record : FormattedToken
  warned : Bool
  ok : Bool
deriving DecidableEq

/-- `save_token_data(token_info)` (blogger_token.py lines 59-84).  The source
calls `int(time.time())` twice — once for `issued_at` and once inside the
`expires_at` sum — so the two successive clock readings are the explicit
parameters `t1` and `t2`.  A missing `refresh_token` only prints a warning;
the record is still written and `True` returned. -/
def save_token_data (t1 t2 : Int) (info : TokenInfo) : SaveTokenTrace :=
  { warned := info.refresh_token.isNone
    record :=
      { access_token := info.access_token
        refresh_token := info.refresh_token
        token_type := info.token_type.getD "Bearer"
        expires_in := info.expires_in
        issued_at := t1
        expires_at := t2 + info.expires_in.getD 0 }
    ok := true }

/-- Loading `blogger_token.json` (written by `save_token_data`) into
`config['token_data']`: the file has no `token` key, so that lookup yields
`none`, while `refresh_token` carries over. -/
def load_saved_token (r : FormattedToken) : TokenData :=
  { token := none, refresh_token := r.refresh_token }

/-- A `requests.Response` as `get_access_token` observes it. -/
structure PyResponse where
  status_code : Nat
  text : String
deriving DecidableEq

/-- `requests.Response.__bool__`, used by the `if response:` test on
blogger_token.py line 54: it returns `self.ok`, i.e. `status_code < 400` —
it does NOT test for `None`. -/
def response_truthy (r : PyResponse) : Bool :=
  decide (r.status_code < 400)

/-- Outcome of the single token-exchange POST: a response object, or the call
itself raised (network failure, no response bound). -/
inductive PostOutcome where
  | resp (r : PyResponse)
  | raised
deriving DecidableEq

/-- What one call of `get_access_token` did: the value returned to the caller
(`some` body on return of `response.json()`, `none` on `return None`),
whether the status-code/body pair was printed, and whether an exception
escaped the function. -/
structure ExchangeTrace where
  result : Option String
  reported : Option (Nat × String)
  uncaught : Bool
deriving DecidableEq

/-- `get_access_token(code)` (blogger_token.py lines 38-57): one POST, no
retry.  `raise_for_status` raises `HTTPError` exactly for statuses in
[400, 600); the `except RequestException` handler prints a generic message,
then prints the status and body only `if response:` — which is the response's
own truthiness (`ok`), false for every error status.  When the POST itself
raised, the local `response` was never bound, so the `if response:` line
raises an uncaught `NameError`. -/
def get_access_token (outcome : PostOutcome) : ExchangeTrace :=
  match outcome with
  | .resp r =>
    if 400 ≤ r.status_code ∧ r.status_code < 600 then
      { result := none
        reported := if response_truthy r then some (r.status_code, r.text)
                    else none
        uncaught := false }
    else
      { result := some r.text, reported := none, uncaught := false }
  | .raised => { result := none, reported := none, uncaught := true }

/-! ## Theorems -/

/-- Per-entry characterization of the `check_duplicate` loop body: it fires
exactly on an exact hash match, or on a parsed timestamp strictly less than
86400 seconds before `now` together with a case-insensitive topic/title
substring hit. -/
theorem post_matches_eq (hashF : String → String) (now : Int) (title : String)
    (p : PostEntry) :
    post_matches hashF now title p = true ↔
      (p.title_hash = some (hashF title) ∨
       ∃ t tp, p.timestamp = some (some t) ∧ now - t < 86400 ∧
         p.topic = some tp ∧ strContains (lowerStr tp) (lowerStr title) = true) := by
  obtain ⟨th, ts, tpc⟩ := p
  rcases th with _ | h <;> rcases ts with _ | ts2 <;>
    (try rcases ts2 with _ | t) <;> rcases tpc with _ | tp <;>
    simp [post_matches]

/-- C2: `check_duplicate(T, _, H)` is true exactly when T's content hash
equals some entry's `title_hash`, or some entry whose timestamp parses to an
instant `t` with `now - t < 86400` (so an entry aged exactly 86400 seconds or
more never fires the time-based branch, and a malformed or absent timestamp
never contributes a time-based match) has a topic that case-insensitively
contains T as a substring. -/
theorem check_duplicate_spec (hashF : String → String) (now : Int)
    (title content : String) (H : List PostEntry) :
    check_duplicate hashF now title content H = true ↔
      ((∃ p ∈ H, p.title_hash = some (hashF title)) ∨
       (∃ p ∈ H, ∃ t tp, p.timestamp = some (some t) ∧ now - t < 86400 ∧
          p.topic = some tp ∧ strContains (lowerStr tp) (lowerStr title) = true)) := by
  unfold check_duplicate
  rw [List.any_eq_true]
  constructor
  · rintro ⟨p, hp, hm⟩
    rcases (post_matches_eq hashF now title p).mp hm with h | h
    · exact Or.inl ⟨p, hp, h⟩
    · exact Or.inr ⟨p, hp, h⟩
  · rintro (⟨p, hp, h⟩ | ⟨p, hp, h⟩)
    · exact ⟨p, hp, (post_matches_eq hashF now title p).mpr (Or.inl h)⟩
    · exact ⟨p, hp, (post_matches_eq hashF now title p).mpr (Or.inr h)⟩

/-- C3: `should_post_today` is true exactly when the number of entries whose
parsed timestamp formats to today's local calendar date is strictly below
`max_posts_per_day`; malformed or missing timestamps never count; the empty
history passes, and one already-dated entry today with the default cap 1
blocks. -/
theorem should_post_today_spec (dateStr : Int → String) (now : Int)
    (H : List PostEntry) (m : Nat) :
    (should_post_today dateStr now H m = true ↔
      H.countP (fun p =>
        match p.timestamp with
        | some (some t) => decide (dateStr t = dateStr now)
        | _ => false) < m) ∧
    should_post_today dateStr now [] 1 = true ∧
    (∀ p t, p.timestamp = some (some t) → dateStr t = dateStr now →
      should_post_today dateStr now [p] 1 = false) := by
  refine ⟨?_, ?_, ?_⟩
  · simp [should_post_today, List.countP_eq_length_filter]
  · simp [should_post_today]
  · intro p t h1 h2
    obtain ⟨th, ts, tpc⟩ := p
    subst h1
    simp [should_post_today, h2]

/-- A concrete entry dated "today" for the witness run. -/
def entry0 : PostEntry :=
  { title_hash := none, timestamp := some (some 0), topic := none }

/-- Witness for C3 at a concrete date map, instant and entry. -/
theorem should_post_today_spec_witness :
    entry0.timestamp = some (some 0) ∧
    (fun _ : Int => "2025-01-01") 0 = (fun _ : Int => "2025-01-01") 0 ∧
    should_post_today (fun _ => "2025-01-01") 0 [entry0] 1 = false :=
  ⟨rfl, rfl,
   (should_post_today_spec (fun _ => "2025-01-01") 0 [] 1).2.2 entry0 0 rfl rfl⟩

/-- C4: the persisted history never exceeds 100 entries; a 105-entry history
loses exactly its oldest 5, keeping the rest in order (`List.drop 5`); and
`save_post_history` returns normally whatever the write does. -/
theorem save_post_history_spec {α : Type} (write : List α → Except String Unit)
    (history : List α) :
    (truncate_history history).length ≤ 100 ∧
    (history.length = 105 → truncate_history history = history.drop 5) ∧
    save_post_history write history = .ok () := by
  refine ⟨?_, ?_, ?_⟩
  · unfold truncate_history
    split
    · rw [List.length_drop]
      omega
    · omega
  · intro h105
    simp [truncate_history, h105]
  · unfold save_post_history
    cases write (truncate_history history) <;> rfl

/-- Witness for C4 on a concrete 105-entry list. -/
theorem save_post_history_spec_witness :
    (List.replicate 105 (0 : Nat)).length = 105 ∧
    truncate_history (List.replicate 105 (0 : Nat)) =
      (List.replicate 105 (0 : Nat)).drop 5 ∧
    save_post_history (fun _ => Except.ok ()) (List.replicate 105 (0 : Nat)) =
      Except.ok () :=
  ⟨by simp,
   (save_post_history_spec (fun _ => Except.ok ()) (List.replicate 105 0)).2.1
     (by simp),
   (save_post_history_spec (fun _ => Except.ok ()) (List.replicate 105 0)).2.2⟩

/-- Candidate stream for the concrete all-duplicates run: `cexGen n` is the
result of the `(n+1)`-th `generate_dynamic_topic()` call. -/
def cexGen : Nat → String
  | 4 => "fifth-candidate"
  | 5 => "sixth-candidate"
  | _ => "other-candidate"

/-- A duplicate check that rejects every candidate. -/
def cexDup : String → Bool := fun _ => true

/-- C1 counterexample: when all 5 loop candidates are judged duplicates, the
topic actually used is NOT the 5th candidate — line 588 generates a fresh 6th
candidate instead. -/
theorem select_topic_not_fifth :
    select_topic cexGen cexDup ≠ cexGen 4 := by
  decide

/-- C1 amended: when every one of the 5 loop candidates is judged a
duplicate, the topic used for publishing is one further call of the topic
generator — a fresh 6th candidate that is never duplicate-checked. -/
theorem select_topic_exhausted (gen : Nat → String) (dup : String → Bool)
    (h : ∀ i, i < 5 → dup (gen i) = true) :
    select_topic gen dup = gen 5 := by
  have h0 := h 0 (by omega)
  have h1 := h 1 (by omega)
  have h2 := h 2 (by omega)
  have h3 := h 3 (by omega)
  have h4 := h 4 (by omega)
  simp [select_topic, select_topic_from, h0, h1, h2, h3, h4]

/-- Witness for the amended C1 on the concrete all-duplicates run. -/
theorem select_topic_exhausted_witness :
    cexDup (cexGen 0) = true ∧ cexDup (cexGen 1) = true ∧
    cexDup (cexGen 2) = true ∧ cexDup (cexGen 3) = true ∧
    cexDup (cexGen 4) = true ∧
    select_topic cexGen cexDup = cexGen 5 :=
  ⟨rfl, rfl, rfl, rfl, rfl,
   select_topic_exhausted cexGen cexDup (fun _ _ => rfl)⟩

/-- The publish POST yields no post object on any non-200 outcome. -/
theorem post_request_none {po : HttpResult} (h : is200 po = false) :
    post_request po = none := by
  cases po with
  | resp s b =>
    simp only [is200, decide_eq_false_iff_not] at h
    simp [post_request, h]
  | exn => rfl

/-- The publish POST yields a post object only on an HTTP 200 outcome. -/
theorem post_request_some {po : HttpResult} {b : String}
    (h : post_request po = some b) : is200 po = true := by
  cases po with
  | resp s b2 =>
    by_cases hs : s = 200
    · subst hs; simp [is200]
    · simp [post_request, hs] at h
  | exn => simp [post_request] at h

/-- Any refresh outcome other than an HTTP 200 response leaves the token
record exactly as it was. -/
theorem refresh_step_not200 (ro : HttpResult) (td : TokenData)
    (hro : is200 ro = false) : refresh_step ro td = td := by
  unfold refresh_step
  cases htd : td.refresh_token with
  | none => rfl
  | some r =>
    cases ro with
    | exn => rfl
    | resp s b =>
      simp only [is200, decide_eq_false_iff_not] at hro
      simp [hro]

/-- C5: the history is appended to and persisted only when the publish call
returns HTTP 200; on any publish failure (non-200 status or raised network
error) the run terminates with exit code 1 and the history file keeps its
pre-run contents. -/
theorem main_run_spec (ro po : HttpResult) (td : TokenData)
    (h : List PostEntry) (e : PostEntry) :
    (is200 po = false → main_run ro po td h e = ⟨1, h⟩) ∧
    (∀ b tok, po = .resp 200 b → (refresh_step ro td).token = some tok →
      main_run ro po td h e = ⟨0, truncate_history (h ++ [e])⟩) ∧
    ((main_run ro po td h e).history ≠ h →
      is200 po = true ∧ (main_run ro po td h e).exitCode = 0) := by
  refine ⟨?_, ?_, ?_⟩
  · intro hpo
    unfold main_run post_to_blog
    cases hba : build_auth (refresh_step ro td) with
    | error err => rfl
    | ok s => simp [post_request_none hpo]
  · intro b tok hpo htok
    subst hpo
    unfold main_run post_to_blog
    simp [build_auth, htok, post_request]
  · intro hne
    unfold main_run post_to_blog at hne ⊢
    cases hba : build_auth (refresh_step ro td) with
    | error err => rw [hba] at hne; simp at hne
    | ok s =>
      cases hpr : post_request po with
      | none => rw [hba, hpr] at hne; simp at hne
      | some body => exact ⟨post_request_some hpr, rfl⟩

/-- A token record as loaded for a run that already holds an access token
under the key `token`. -/
def tdTok : TokenData := { token := some "T", refresh_token := none }

/-- Witness for C5 at a failed (HTTP 401) and a successful (HTTP 200)
publish. -/
theorem main_run_spec_witness :
    is200 (.resp 401 "err") = false ∧
    main_run .exn (.resp 401 "err") tdTok [] entry0 = ⟨1, []⟩ ∧
    (refresh_step .exn tdTok).token = some "T" ∧
    main_run .exn (.resp 200 "ok") tdTok [] entry0 =
      ⟨0, truncate_history ([] ++ [entry0])⟩ :=
  ⟨by decide,
   (main_run_spec .exn (.resp 401 "err") tdTok [] entry0).1 (by decide),
   rfl,
   (main_run_spec .exn (.resp 200 "ok") tdTok [] entry0).2.1 "ok" "T" rfl rfl⟩

/-- C6: on any refresh outcome other than HTTP 200 (non-200 status or raised
network error) the token record — in particular the previously stored access
token — is left unchanged, the refresh block returns normally (it is a total
function here, mirroring the bare `except` that swallows every error), and
the Authorization header for the publish attempt is built from the old
token. -/
theorem refresh_failure_spec (ro : HttpResult) (td : TokenData)
    (hro : is200 ro = false) :
    refresh_step ro td = td ∧
    (∀ tok, td.token = some tok →
      build_auth (refresh_step ro td) = .ok ("Bearer " ++ tok)) := by
  refine ⟨refresh_step_not200 ro td hro, ?_⟩
  intro tok htok
  rw [refresh_step_not200 ro td hro]
  simp [build_auth, htok]

/-- A token record holding both an old access token and a refresh token. -/
def tdFull : TokenData := { token := some "OLD", refresh_token := some "R" }

/-- Witness for C6 at a concrete failed refresh (HTTP 500). -/
theorem refresh_failure_spec_witness :
    is200 (.resp 500 "boom") = false ∧
    refresh_step (.resp 500 "boom") tdFull = tdFull ∧
    build_auth (refresh_step (.resp 500 "boom") tdFull) =
      .ok ("Bearer " ++ "OLD") :=
  ⟨by decide,
   (refresh_failure_spec (.resp 500 "boom") tdFull (by decide)).1,
   (refresh_failure_spec (.resp 500 "boom") tdFull (by decide)).2 "OLD" rfl⟩

/-- C10: `save_token_data` persists the access token under the key
`access_token` and writes no `token` key, while `post_to_blog` reads
`token_data["token"]`; so for a record loaded from that file, whenever the
refresh POST does not return HTTP 200 (or no refresh token is present at
all), building the Authorization header raises an uncaught `KeyError`
instead of proceeding with the stored access token. -/
theorem token_key_mismatch_spec (t1 t2 : Int) (info : TokenInfo)
    (ro : HttpResult)
    (hfail : is200 ro = false ∨ info.refresh_token = none) :
    (save_token_data t1 t2 info).record.access_token = info.access_token ∧
    (load_saved_token (save_token_data t1 t2 info).record).token = none ∧
    build_auth (refresh_step ro
      (load_saved_token (save_token_data t1 t2 info).record)) =
      .error "KeyError: token" := by
  refine ⟨rfl, rfl, ?_⟩
  have htd : load_saved_token (save_token_data t1 t2 info).record =
      { token := none, refresh_token := info.refresh_token } := rfl
  rw [htd]
  rcases hfail with hro | hnone
  · rw [refresh_step_not200 ro _ hro]
    rfl
  · rw [hnone]
    rfl

/-- A token-endpoint response carrying a refresh token. -/
def infoR : TokenInfo :=
  { access_token := some "A", refresh_token := some "R",
    token_type := some "Bearer", expires_in := some 3600 }

/-- Witness for C10 at a concrete failed refresh (HTTP 400). -/
theorem token_key_mismatch_spec_witness :
    is200 (.resp 400 "bad") = false ∧
    build_auth (refresh_step (.resp 400 "bad")
      (load_saved_token (save_token_data 0 0 infoR).record)) =
      .error "KeyError: token" :=
  ⟨by decide,
   (token_key_mismatch_spec 0 0 infoR (.resp 400 "bad")
     (Or.inl (by decide))).2.2⟩

/-- C7 (code divergence, evaluated at the failing input): for an HTTP 400
response to the token-exchange POST, `get_access_token` returns no token, but
it also reports neither the status code nor the body: the `if response:`
guard is the response's own truthiness (`Response.ok`), which is false for
every error status, so the two print statements meant to surface them are
skipped. -/
theorem get_access_token_hides_error :
    get_access_token (.resp { status_code := 400, text := "invalid_grant" }) =
      { result := none, reported := none, uncaught := false } := by
  decide

/-- C8 counterexample: with the Google client id, client secret and blog id
all absent from the environment (only the Gemini key set and the token file
readable), `load_config` still succeeds and `main` does not exit — the run
proceeds toward its network calls with the `'***'` placeholders. -/
theorem load_config_missing_google_creds :
    (load_config
      { GOOGLE_CLIENT_ID := none, GOOGLE_CLIENT_SECRET := none,
        BLOGGER_BLOG_ID := none, GEMINI_API_KEY := some "gk" }
      (some { token := some "T", refresh_token := some "R" })).isSome = true ∧
    config_exit_code (load_config
      { GOOGLE_CLIENT_ID := none, GOOGLE_CLIENT_SECRET := none,
        BLOGGER_BLOG_ID := none, GEMINI_API_KEY := some "gk" }
      (some { token := some "T", refresh_token := some "R" })) = none := by
  decide

/-- C8 amended: the only fatal startup conditions are an unreadable
`blogger_token.json` and a missing (or placeholder, or empty) Gemini API
key; each makes `load_config` return `None` and `main` exit with status 1
before any network call.  Missing Google client id / client secret / blog id
are not checked at startup. -/
theorem load_config_spec (env : Env) (tf : Option TokenData) :
    (env.GEMINI_API_KEY = none →
      load_config env tf = none ∧
      config_exit_code (load_config env tf) = some 1) ∧
    (tf = none → load_config env tf = none) ∧
    (∀ k td, env.GEMINI_API_KEY = some k → k ≠ "" → k ≠ "***" →
      tf = some td → (load_config env tf).isSome = true) := by
  refine ⟨?_, ?_, ?_⟩
  · intro hg
    have hnone : load_config env tf = none := by
      unfold load_config
      cases tf with
      | none => rfl
      | some td => simp [hg]
    exact ⟨hnone, by rw [hnone]; rfl⟩
  · intro htf; subst htf; rfl
  · intro k td hg hk1 hk2 htf
    subst htf
    unfold load_config
    simp [hg, hk1, hk2]

/-- Witness for the amended C8 at a concrete empty environment. -/
theorem load_config_spec_witness :
    ({ GOOGLE_CLIENT_ID := none, GOOGLE_CLIENT_SECRET := none,
       BLOGGER_BLOG_ID := none, GEMINI_API_KEY := none } : Env).GEMINI_API_KEY
      = none ∧
    load_config
      { GOOGLE_CLIENT_ID := none, GOOGLE_CLIENT_SECRET := none,
        BLOGGER_BLOG_ID := none, GEMINI_API_KEY := none }
      (some { token := none, refresh_token := none }) = none :=
  ⟨rfl, ((load_config_spec _ _).1 rfl).1⟩

/-- C9 counterexample: `issued_at` and `expires_at` come from two separate
`int(time.time())` calls; when the clock ticks from second 0 to second 1
between them, the persisted record has `expires_at = 3601` but
`issued_at + expires_in = 3600`. -/
theorem save_token_data_two_clock_reads :
    (save_token_data 0 1
      { access_token := some "A", refresh_token := some "R",
        token_type := none, expires_in := some 3600 }).record.expires_at ≠
    (save_token_data 0 1
      { access_token := some "A", refresh_token := some "R",
        token_type := none, expires_in := some 3600 }).record.issued_at +
      3600 := by
  decide

/-- C9 amended: the persisted record has `issued_at = t1` and
`expires_at = t2 + expires_in` for the two successive clock reads `t1, t2`;
whenever the two reads return the same second, the invariant
`expires_at = issued_at + expires_in` holds.  A missing `refresh_token`
only logs a warning: the record is still saved (with `refresh_token` null)
and the call reports success. -/
theorem save_token_data_spec (t1 t2 : Int) (info : TokenInfo) :
    (save_token_data t1 t2 info).record.issued_at = t1 ∧
    (save_token_data t1 t2 info).record.expires_at =
      t2 + info.expires_in.getD 0 ∧
    (∀ e, t1 = t2 → info.expires_in = some e →
      (save_token_data t1 t2 info).record.expires_at =
        (save_token_data t1 t2 info).record.issued_at + e) ∧
    (info.refresh_token = none →
      (save_token_data t1 t2 info).warned = true ∧
      (save_token_data t1 t2 info).ok = true) ∧
    (save_token_data t1 t2 info).record.refresh_token = info.refresh_token := by
  refine ⟨rfl, rfl, ?_, ?_, rfl⟩
  · intro e h12 he
    subst h12
    simp [save_token_data, he]
  · intro hr
    simp [save_token_data, hr]

/-- A token-endpoint response with no refresh token. -/
def infoA : TokenInfo :=
  { access_token := some "A", refresh_token := none,
    token_type := none, expires_in := some 3600 }

/-- Witness for the amended C9 at equal clock reads and a missing refresh
token. -/
theorem save_token_data_spec_witness :
    infoA.expires_in = some 3600 ∧ infoA.refresh_token = none ∧
    (save_token_data 0 0 infoA).record.expires_at =
      (save_token_data 0 0 infoA).record.issued_at + 3600 ∧
    (save_token_data 0 0 infoA).warned = true ∧
    (save_token_data 0 0 infoA).ok = true :=
  ⟨rfl, rfl,
   (save_token_data_spec 0 0 infoA).2.2.1 3600 rfl rfl,
   ((save_token_data_spec 0 0 infoA).2.2.2.1 rfl).1,
   ((save_token_data_spec 0 0 infoA).2.2.2.1 rfl).2⟩
